import Mathlib

/-
Shallow embedding of the jira-assistant MCP server (Python) in Lean 4.

Text is modelled as `List Char` (named `Str` below), matching Python's
per-code-point string semantics: slicing, length, concatenation and
iteration in the source all operate on code points.

Each definition carries a reference to the Python function it embeds.
Remote HTTP calls are modelled by an environment (`RemoteEnv`) supplying
the responses, and each handler returns the list of remote calls it
issued, in order, next to its textual result, so that call-count and
ordering properties can be stated.
-/

namespace JiraAssistant

/-- Text as a list of code points. -/
abbrev Str := List Char

/-- Code points of a literal. -/
def lit (s : String) : Str := s.toList

/-- Decimal rendering of a natural number, as Python's str(n). -/
def natChars (n : Nat) : Str := (Nat.repr n).toList

/-- Decimal rendering of an integer, as Python's str(i). -/
def intChars (i : Int) : Str := (Int.repr i).toList

/-- A single-quote character (U+0027), used in source error messages. -/
def squote : Char := Char.ofNat 39

/-- Python truthiness of a string: non-empty. -/
def pyTruthy (s : Str) : Bool := !s.isEmpty

/-- Python truthiness of an optional string: present and non-empty
(`None` and the empty string are both falsy). -/
def pyTruthyOpt (o : Option Str) : Bool :=
  match o with
  | none => false
  | some s => pyTruthy s

/-- ASCII whitespace stripped by Python's str.strip (the source only ever
strips ASCII text; the full Unicode table is not needed here). -/
def isPyWs (c : Char) : Bool :=
  c.toNat = 32 || c.toNat = 9 || c.toNat = 10 || c.toNat = 13 ||
  c.toNat = 11 || c.toNat = 12

/-- Python str.strip(): drop leading and trailing whitespace. -/
def pyStrip (s : Str) : Str :=
  ((s.dropWhile isPyWs).reverse.dropWhile isPyWs).reverse

/-- Python s.rsplit("-", 1)[0]: everything before the last '-', or the
whole string when no '-' occurs.  Used to infer a project key from an
epic key (create_new_ticket.py line 41 and line 120). -/
def rsplitDashHead (s : Str) : Str :=
  match s.reverse.dropWhile (fun c => c != '-') with
  | [] => s
  | _ :: rest => rest.reverse

/-- Python str.upper() over ASCII text (update_config.py line 52). -/
def upperChars (s : Str) : Str := s.map Char.toUpper

/-- Python str.lower() over ASCII text (transition_ticket.py line 51). -/
def lowerChars (s : Str) : Str := s.map Char.toLower

/-- Python sep.join(parts). -/
def joinWith (sep : Str) : List Str → Str
  | [] => []
  | [x] => x
  | x :: y :: ys => x ++ sep ++ joinWith sep (y :: ys)

/-! ## Query translation (JQL builders) -/

/-- config.py get_project_jql: renders the project-in-set clause.  The
member keys are interpolated by the comma-join without quoting. -/
def get_project_jql (project_keys : List Str) : Str :=
  if !project_keys.isEmpty then
    lit "project IN (" ++ joinWith (lit ", ") project_keys ++ lit ")"
  else
    []

/-- search_similar_tickets.py lines 45-52: the jql_parts list built
for the similarity search. -/
def searchSimilarParts (search_text : Str) (include_done : Bool)
    (project_filter : Option Str) (project_keys : List Str) : List Str :=
  let parts0 := [lit "text ~ \"" ++ search_text ++ lit "\""]
  let parts1 :=
    if !include_done then parts0 ++ [lit "statusCategory != \"Done\""]
    else parts0
  if pyTruthyOpt project_filter then
    parts1 ++ [lit "project = \"" ++ project_filter.getD [] ++ lit "\""]
  else if !project_keys.isEmpty then
    parts1 ++ [get_project_jql project_keys]
  else parts1

/-- search_similar_tickets.py line 54: the JQL sent by the similarity
search — the AND-join of the parts plus the ordering clause. -/
def searchSimilarJql (search_text : Str) (include_done : Bool)
    (project_filter : Option Str) (project_keys : List Str) : Str :=
  joinWith (lit " AND ")
    (searchSimilarParts search_text include_done project_filter
      project_keys) ++ lit " ORDER BY updated DESC"

/-- get_epic_tickets.py lines 40-45: the JQL built for fetching an
epic's children. -/
def fetchEpicTicketsJql (epic_key : Str) (include_done : Bool) : Str :=
  let parts0 := [lit "parent = \"" ++ epic_key ++ lit "\""]
  let parts1 :=
    if !include_done then parts0 ++ [lit "statusCategory != \"Done\""]
    else parts0
  joinWith (lit " AND ") parts1 ++ lit " ORDER BY status ASC, updated DESC"

/-! ## Rich-text (ADF) flattening -/

/-- An inline node of the tracker's rich-text document: item.get("type")
and item.get("text", "") in the source; a missing "text" key is the
empty string. -/
structure AdfItem where
  type : Str
  text : Str
deriving DecidableEq

/-- A top-level block of the rich-text document: block.get("type") and
block.get("content", []). -/
structure AdfBlock where
  type : Str
  content : List AdfItem
deriving DecidableEq

/-- The text contributed by one block's items: the inner loop shared by
both flatteners (append item text for items of type "text"). -/
def adfItemsText (acc : Str) (items : List AdfItem) : Str :=
  items.foldl
    (fun a it => if it.type = lit "text" then a ++ it.text else a) acc

/-- search_similar_tickets.py lines 80-85: flatten a description
document; paragraph blocks contribute their text items, with nothing
added between paragraphs; other block types contribute nothing. -/
def searchDescText (blocks : List AdfBlock) : Str :=
  blocks.foldl
    (fun acc b =>
      if b.type = lit "paragraph" then adfItemsText acc b.content
      else acc)
    []

/-- get_ticket_details.py lines 60-66: flatten a description document;
a newline is appended after each paragraph block; other block types
contribute nothing. -/
def detailsDescText (blocks : List AdfBlock) : Str :=
  blocks.foldl
    (fun acc b =>
      if b.type = lit "paragraph" then adfItemsText acc b.content ++ lit "\n"
      else acc)
    []

/-- get_ticket_details.py line 136: the description placed in the
result record is the flattened text stripped of surrounding
whitespace (desc_text.strip()). -/
def detailsDescription (blocks : List AdfBlock) : Str :=
  pyStrip (detailsDescText blocks)

/-- The text one inline item contributes ("text" items contribute
their text, anything else contributes nothing). -/
def itemText (it : AdfItem) : Str :=
  if it.type = lit "text" then it.text else []

/-- The plain text of one block's items, concatenated with no
separator. -/
def paraText (b : AdfBlock) : Str := (b.content.map itemText).flatten

/-- Whether a block is a paragraph block. -/
def isPara (b : AdfBlock) : Bool := b.type == lit "paragraph"

/-! ## Similarity candidates and the description preview -/

/-- search_similar_tickets.py line 97: the truncated description
preview (desc_text[:200] + "..." when len(desc_text) > 200, else
desc_text unchanged). -/
def description_preview (desc_text : Str) : Str :=
  if desc_text.length > 200 then desc_text.take 200 ++ lit "..."
  else desc_text

/-- The projection of a search-result issue used by the creation
warning (search_similar_tickets.py lines 89-99 build a record with
key, summary, status, priority, project, type, assignee,
description_preview and url; the creation handlers read only key,
summary and status, so only those are carried here). -/
structure Ticket where
  key : Str
  summary : Str
  status : Str
deriving DecidableEq

/-! ## Duplicate-aware creation workflow -/

/-- One listed candidate of the creation warning
(create_new_ticket.py line 109, create_new_epic.py line 90 and
server.py line 777: same f-string in all three). -/
def candidateLine (t : Ticket) : Str :=
  lit "  • [" ++ t.key ++ lit "] " ++ t.summary ++ lit " (" ++
  t.status ++ lit ")\n"

/-- The warning header naming the total number of matches
(create_new_ticket.py line 107). -/
def warningHeader (n : Nat) : Str :=
  lit "⚠️ WARNING: Found " ++ natChars n ++
  lit " potentially similar ticket(s):\n"

/-- create_new_ticket.py lines 105-110 (and the identical block in
server.py lines 773-779): the warning accumulated by string
concatenation; empty when no candidates were found. -/
def ticketCreationWarning (similar : List Ticket) : Str :=
  if !similar.isEmpty then
    ((similar.take 3).foldl (fun w t => w ++ candidateLine t)
      (warningHeader similar.length)) ++
    lit "\nProceeding with ticket creation...\n\n"
  else []

/-- create_new_epic.py lines 86-91: the same warning with the epic
footer. -/
def epicCreationWarning (similar : List Ticket) : Str :=
  if !similar.isEmpty then
    ((similar.take 3).foldl (fun w t => w ++ candidateLine t)
      (warningHeader similar.length)) ++
    lit "\nProceeding with epic creation...\n\n"
  else []

/-- The creation payload's fields map (create_new_ticket.py
lines 47-71, create_new_epic.py lines 39-55).  The sprint value is
carried as the configured string (the source converts it with int()
before sending). -/
structure IssueFields where
  project : Str
  summary : Str
  issuetype : Str
  priority : Option Str
  sprint : Option Str
  description : Option Str
  parent : Option Str
deriving DecidableEq

/-- A remote HTTP call issued by a handler, in issue order. -/
inductive RemoteCall where
  | search (jql : Str) (maxResults : Nat)
  | create (fields : IssueFields)
deriving DecidableEq

/-- The remote store's responses: what the similarity search returns
(or the API-error text it raises), and what the creation call returns
(the new issue's key, or the API-error text it raises). -/
structure RemoteEnv where
  searchResult : Except Str (List Ticket)
  createResult : Except Str Str

/-- Process-wide configuration read from the environment at startup
(config.py lines 10-17). -/
structure ProcCfg where
  jira_host : Str
  project_keys : List Str
  default_priority : Str
  default_issue_type : Str

/-- The persisted runtime configuration (config.py lines 23-26): two
string-valued settings, the empty string meaning unset. -/
structure RuntimeConfig where
  default_sprint_id : Str
  default_project : Str
deriving DecidableEq

/-- config.py get_default_project. -/
def get_default_project (c : RuntimeConfig) : Str := c.default_project

/-- config.py get_default_sprint_id. -/
def get_default_sprint_id (c : RuntimeConfig) : Str := c.default_sprint_id

/-- config.py set_default_project: overwrite the field; the
accompanying _save_config() persistence is counted by the caller. -/
def set_default_project (c : RuntimeConfig) (k : Str) : RuntimeConfig :=
  { c with default_project := k }

/-- config.py set_default_sprint_id: str(sprint_id) if sprint_id else ""
(an integer 0 is falsy and is stored as the empty string). -/
def set_default_sprint_id (c : RuntimeConfig) (i : Int) : RuntimeConfig :=
  { c with default_sprint_id := if i ≠ 0 then intChars i else [] }

/-- What a tool handler produces: the remote calls it issued in order,
the runtime configuration as left behind, and the text returned. -/
structure HandlerOut where
  calls : List RemoteCall
  config : RuntimeConfig
  text : Str
deriving DecidableEq

/-- Arguments of the create_new_ticket tool (summary required,
description and epic_key optional). -/
structure TicketArgs where
  summary : Str
  description : Option Str
  epic_key : Option Str

/-- The fields map built by create_new_ticket.py lines 47-71 once the
project key is resolved. -/
def ticketFields (pc : ProcCfg) (cfg : RuntimeConfig) (project_key : Str)
    (summary : Str) (description : Option Str) (epic_key : Option Str) :
    IssueFields :=
  { project := project_key
    summary := summary
    issuetype := pc.default_issue_type
    priority := some pc.default_priority
    sprint :=
      if pyTruthy (get_default_sprint_id cfg) then
        some (get_default_sprint_id cfg)
      else none
    description := if pyTruthyOpt description then description else none
    parent := if pyTruthyOpt epic_key then epic_key else none }

/-- create_new_ticket.py create_ticket (lines 34-91): resolve the
project (epic-key inference first, else the configured default),
build the fields and issue the creation call.  Returns the calls
issued and either the created key or the raised error text. -/
def create_ticket (pc : ProcCfg) (cfg : RuntimeConfig) (env : RemoteEnv)
    (summary : Str) (description : Option Str) (epic_key : Option Str) :
    List RemoteCall × Except Str Str :=
  let resolved : Except Str Str :=
    if pyTruthyOpt epic_key then .ok (rsplitDashHead (epic_key.getD []))
    else if pyTruthy (get_default_project cfg) then
      .ok (get_default_project cfg)
    else
      .error (lit "No default project configured. Set PROJECT_KEYS in .env or use update_config.")
  match resolved with
  | .error e => ([], .error e)
  | .ok project_key =>
    ([RemoteCall.create (ticketFields pc cfg project_key summary description epic_key)],
     match env.createResult with
     | .error e => .error e
     | .ok key => .ok key)

/-- The browse URL of a created issue (create_new_ticket.py line 90). -/
def browseUrl (pc : ProcCfg) (key : Str) : Str :=
  pc.jira_host ++ lit "/browse/" ++ key

/-- create_new_ticket.py line 121: the part of the outcome following
the warning. -/
def createdTicketText (pc : ProcCfg) (key project_used : Str) : Str :=
  lit "Created ticket: " ++ key ++ lit "\nProject: " ++ project_used ++
  lit " | Type: " ++ pc.default_issue_type ++ lit " | Priority: " ++
  pc.default_priority ++ lit "\nURL: " ++ browseUrl pc key

/-- create_new_ticket.py handler (lines 94-121): validate the summary,
require a configured default project, run the similarity search, build
the warning, create the ticket, and compose the outcome text. -/
def createNewTicketHandler (pc : ProcCfg) (cfg : RuntimeConfig)
    (env : RemoteEnv) (args : TicketArgs) : HandlerOut :=
  if !pyTruthy args.summary then
    ⟨[], cfg, lit "Error: summary is required"⟩
  else
    let default_project := get_default_project cfg
    if !pyTruthy default_project then
      ⟨[], cfg, lit "Error: No default project configured. Set PROJECT_KEYS in .env or use update_config."⟩
    else
      let sCall := RemoteCall.search
        (searchSimilarJql args.summary false none pc.project_keys) 5
      match env.searchResult with
      | .error e => ⟨[sCall], cfg, e⟩
      | .ok similar =>
        let warning := ticketCreationWarning similar
        let (cCalls, res) :=
          create_ticket pc cfg env args.summary args.description args.epic_key
        match res with
        | .error e => ⟨sCall :: cCalls, cfg, e⟩
        | .ok key =>
          let project_used :=
            if pyTruthyOpt args.epic_key then
              rsplitDashHead (args.epic_key.getD [])
            else default_project
          ⟨sCall :: cCalls, cfg,
           warning ++ createdTicketText pc key project_used⟩

/-- Arguments of the create_new_epic tool (project and summary
required, description optional). -/
structure EpicArgs where
  project : Str
  summary : Str
  description : Option Str

/-- The fields map built by create_new_epic.py lines 39-55 (issue type
Epic, no priority, no sprint, no parent). -/
def epicFields (project summary : Str) (description : Option Str) :
    IssueFields :=
  { project := project
    summary := summary
    issuetype := lit "Epic"
    priority := none
    sprint := none
    description := if pyTruthyOpt description then description else none
    parent := none }

/-- create_new_epic.py create_epic (lines 34-75): build the epic's
fields and issue the creation call. -/
def create_epic (env : RemoteEnv) (project : Str)
    (summary : Str) (description : Option Str) :
    List RemoteCall × Except Str Str :=
  ([RemoteCall.create (epicFields project summary description)],
   match env.createResult with
   | .error e => .error e
   | .ok key => .ok key)

/-- create_new_epic.py handler (lines 78-99): validate project and
summary, search (summary plus the literal " Epic" discriminator),
warn, create, compose. -/
def createNewEpicHandler (pc : ProcCfg) (cfg : RuntimeConfig)
    (env : RemoteEnv) (args : EpicArgs) : HandlerOut :=
  if !pyTruthy args.project || !pyTruthy args.summary then
    ⟨[], cfg, lit "Error: project and summary are required"⟩
  else
    let sCall := RemoteCall.search
      (searchSimilarJql (args.summary ++ lit " Epic") false none
        pc.project_keys) 5
    match env.searchResult with
    | .error e => ⟨[sCall], cfg, e⟩
    | .ok similar =>
      let warning := epicCreationWarning similar
      let (cCalls, res) :=
        create_epic env args.project args.summary args.description
      match res with
      | .error e => ⟨sCall :: cCalls, cfg, e⟩
      | .ok key =>
        ⟨sCall :: cCalls, cfg,
         warning ++ lit "Created epic: " ++ key ++ lit "\nURL: " ++
         browseUrl pc key⟩

/-! ## The update_config tool -/

/-- Arguments of the update_config tool: each field is `some` when the
key is present in the argument bundle.  (A present-but-null JSON value
behaves as an absent one in the source and is collapsed into `none`.) -/
structure UpdateConfigArgs where
  default_project : Option Str
  default_sprint_id : Option Int

/-- What the update_config handler produces: the runtime configuration
left behind, how many times _save_config() persisted it, and the text
returned. -/
structure ConfigOut where
  config : RuntimeConfig
  persists : Nat
  text : Str
deriving DecidableEq

/-- update_config.py lines 37-40: a value or the "(not set)" marker. -/
def orNotSet (s : Str) : Str := if pyTruthy s then s else lit "(not set)"

/-- update_config.py lines 36-44: the current-configuration display. -/
def showCurrentConfig (cfg : RuntimeConfig) : Str :=
  lit "Current configuration:\n  • default_project: " ++
  orNotSet (get_default_project cfg) ++
  lit "\n  • default_sprint_id: " ++
  orNotSet (get_default_sprint_id cfg)

/-- update_config.py lines 57-60: the change line for the project. -/
def projectChangeLine (old upd : Str) : Str :=
  if pyTruthy old && old ≠ upd then
    lit "default_project: " ++ old ++ lit " → " ++ upd
  else lit "default_project: " ++ upd

/-- update_config.py lines 68-71: the change line for the sprint id
(rendered from the requested integer, not the stored string). -/
def sprintChangeLine (old : Str) (i : Int) : Str :=
  if pyTruthy old && old ≠ intChars i then
    lit "default_sprint_id: " ++ old ++ lit " → " ++ intChars i
  else lit "default_sprint_id: " ++ intChars i

/-- update_config.py handler (lines 34-76): show the configuration
when no argument is given; otherwise uppercase a present project
value, reject it when a non-empty allowlist does not contain it
(aborting the whole call), else write and persist it; then write and
persist a present sprint id; report the changes. -/
def updateConfigHandler (pk : List Str) (cfg : RuntimeConfig)
    (args : UpdateConfigArgs) : ConfigOut :=
  if args.default_project.isNone && args.default_sprint_id.isNone then
    ⟨cfg, 0, showCurrentConfig cfg⟩
  else
    let step1 : Except Str (RuntimeConfig × Nat × List Str) :=
      match args.default_project with
      | none => .ok (cfg, 0, [])
      | some v =>
        if pyTruthy v then
          let vU := upperChars v
          if !pk.isEmpty && !pk.contains vU then
            .error (lit "Error: " ++ [squote] ++ vU ++ [squote] ++
              lit " is not a configured project. Available: " ++
              joinWith (lit ", ") pk)
          else
            .ok (set_default_project cfg vU, 1,
              [projectChangeLine (get_default_project cfg) vU])
        else .ok (cfg, 0, [])
    match step1 with
    | .error e => ⟨cfg, 0, e⟩
    | .ok (cfg1, n1, ch1) =>
      let next :=
        match args.default_sprint_id with
        | none => (cfg1, n1, ch1)
        | some i =>
          (set_default_sprint_id cfg1 i, n1 + 1,
           ch1 ++ [sprintChangeLine (get_default_sprint_id cfg1) i])
      match next with
      | (cfg2, n2, ch2) =>
        if ch2.isEmpty then
          ⟨cfg2, n2, lit "No changes made. Provide at least one setting to update."⟩
        else
          ⟨cfg2, n2, lit "Updated configuration:\n  • " ++
            joinWith (lit "\n  • ") ch2⟩

/-! ## Status transitions -/

/-- One entry of the list-transitions response: t.get("id") and
t.get("name"), either possibly missing. -/
structure RemoteTransition where
  id : Option Str
  name : Option Str
deriving DecidableEq

/-- A missing text value read with a default (dict.get(k, "")). -/
def optChars (o : Option Str) : Str := o.getD []

/-- transition_ticket.py lines 47-53: walk the transitions, collecting
names, stopping at the first whose name matches the requested one
case-insensitively.  Returns `some id?` when a match was found (with
that transition's possibly-missing id) and the names collected up to
that point. -/
def scanTransitions (requested : Str) :
    List RemoteTransition → Option (Option Str) × List (Option Str)
  | [] => (none, [])
  | t :: ts =>
    if lowerChars (optChars t.name) = lowerChars requested then
      (some t.id, [t.name])
    else
      let p := scanTransitions requested ts
      (p.1, t.name :: p.2)

/-- transition_ticket.py line 56: the not-found error text.  (The
source joins the raw collected names; a missing name is rendered here
as the empty string.) -/
def transitionNotFoundText (requested : Str)
    (available : List (Option Str)) : Str :=
  lit "Transition " ++ [squote] ++ requested ++ [squote] ++
  lit " not found. Available: " ++
  joinWith (lit ", ") (available.map optChars)

/-- transition_ticket.py lines 47-61: decide the transition.  An `ok`
value is the id carried by the apply-transition POST that follows; an
`error` value is the text of the exception raised instead.  A match
whose id is missing or empty is falsy in the source and also raises
the not-found error. -/
def transitionDecision (transitions : List RemoteTransition)
    (requested : Str) : Except Str Str :=
  match scanTransitions requested transitions with
  | (found, available) =>
    let tid : Option Str :=
      match found with
      | none => none
      | some i => i
    if !pyTruthyOpt tid then
      .error (transitionNotFoundText requested available)
    else .ok (tid.getD [])

/-! ## Ticket-details rendering (comments) -/

/-- A normalized comment (get_ticket_details.py lines 82-86). -/
structure CommentRec where
  author : Str
  created : Str
  body : Str
deriving DecidableEq

/-- get_ticket_details.py line 176: one rendered comment. -/
def commentBlock (c : CommentRec) : Str :=
  lit "\n--- " ++ c.author ++ lit " (" ++ c.created ++ lit ") ---\n" ++
  c.body ++ lit "\n"

/-- Python xs[-n:]: the last n elements (all of them when there are
fewer than n). -/
def pyLastN (n : Nat) (xs : List α) : List α := xs.drop (xs.length - n)

/-- get_ticket_details.py lines 173-176: the comments section appended
to the response — a header carrying the total count followed by the
last 5 comments; nothing at all when there are no comments. -/
def commentsSection (comments : List CommentRec) : Str :=
  if !comments.isEmpty then
    (pyLastN 5 comments).foldl (fun acc c => acc ++ commentBlock c)
      (lit "\nComments (" ++ natChars comments.length ++ lit "):\n")
  else []

/-- get_ticket_details.py handler (lines 142-178): the response is the
field block (opaque here) with the comments section appended. -/
def ticketDetailsText (fieldBlock : Str) (comments : List CommentRec) : Str :=
  fieldBlock ++ commentsSection comments

/-! ## Sample values used by witnesses and counterexamples -/

/-- A process configuration used by concrete instantiations. -/
def pc0 : ProcCfg :=
  { jira_host := lit "https://jira.example.com"
    project_keys := [lit "PROJ"]
    default_priority := lit "Medium"
    default_issue_type := lit "Task" }

/-- A runtime configuration with both settings unset. -/
def cfgUnset : RuntimeConfig := { default_sprint_id := [], default_project := [] }

/-- A runtime configuration with a default project configured. -/
def cfgProj : RuntimeConfig :=
  { default_sprint_id := [], default_project := lit "PROJ" }

/-- A sample candidate numbered by its key. -/
def sampleTicket (n : Nat) : Ticket :=
  { key := lit "PROJ-" ++ natChars n
    summary := lit "Candidate " ++ natChars n
    status := lit "To Do" }

/-- Seven similarity candidates. -/
def sevenTickets : List Ticket := (List.range 7).map (fun n => sampleTicket (n + 1))

/-- A remote environment whose search succeeds with seven candidates
and whose creation succeeds. -/
def env7 : RemoteEnv := ⟨.ok sevenTickets, .ok (lit "PROJ-100")⟩

/-- A remote environment whose search raises an API error. -/
def envSearchErr : RemoteEnv :=
  ⟨.error (lit "Jira API error 500: boom"), .ok (lit "PROJ-100")⟩

/-- Ticket-creation arguments with no epic key. -/
def targs0 : TicketArgs := ⟨lit "Fix login bug", none, none⟩

/-- Ticket-creation arguments carrying an epic key. -/
def targsEpic : TicketArgs := ⟨lit "Fix login bug", none, some (lit "PROJ2-100")⟩

/-- Epic-creation arguments. -/
def eargs0 : EpicArgs := ⟨lit "PROJ", lit "Checkout revamp", none⟩

/-- A rich-text document of two paragraph blocks, each holding one
text node. -/
def twoParaHelloWorld : List AdfBlock :=
  [⟨lit "paragraph", [⟨lit "text", lit "Hello"⟩]⟩,
   ⟨lit "paragraph", [⟨lit "text", lit "World"⟩]⟩]

/-- A list-transitions response offering "Done" and "To Do". -/
def doneTransitions : List RemoteTransition :=
  [⟨some (lit "31"), some (lit "Done")⟩,
   ⟨some (lit "41"), some (lit "To Do")⟩]

/-- Six normalized comments. -/
def sixComments : List CommentRec :=
  [⟨lit "A", lit "t1", lit "b1"⟩, ⟨lit "B", lit "t2", lit "b2"⟩,
   ⟨lit "C", lit "t3", lit "b3"⟩, ⟨lit "D", lit "t4", lit "b4"⟩,
   ⟨lit "E", lit "t5", lit "b5"⟩, ⟨lit "F", lit "t6", lit "b6"⟩]

/-! ## Helper lemmas -/

theorem foldl_append_flatten {α : Type} (f : α → Str) :
    ∀ (l : List α) (init : Str),
      l.foldl (fun acc x => acc ++ f x) init = init ++ (l.map f).flatten
  | [], init => by simp
  | x :: xs, init => by
    rw [List.foldl_cons, foldl_append_flatten f xs (init ++ f x)]
    simp [List.append_assoc]

theorem dropWhile_ne_dash (r : Str) :
    ∀ (l : Str), (∀ c ∈ l, c ≠ '-') →
      List.dropWhile (fun c => c != '-') (l ++ '-' :: r) = '-' :: r
  | [], _ => by simp [List.dropWhile]
  | c :: cs, h => by
    have hc : c ≠ '-' := h c (by simp)
    rw [List.cons_append, List.dropWhile_cons]
    simp only [hc, bne_iff_ne, ne_eq, not_false_eq_true, if_true]
    exact dropWhile_ne_dash r cs (fun d hd => h d (List.mem_cons_of_mem _ hd))

theorem rsplitDashHead_append (p ds : Str) (h : '-' ∉ ds) :
    rsplitDashHead (p ++ '-' :: ds) = p := by
  unfold rsplitDashHead
  have hrev : (p ++ '-' :: ds).reverse = ds.reverse ++ '-' :: p.reverse := by
    simp
  rw [hrev, dropWhile_ne_dash _ ds.reverse
    (fun c hc => by
      intro heq
      exact h (by simpa [heq] using (List.mem_reverse.mp hc)))]
  simp

theorem joinWith_head_prefixes (sep x : Str) :
    ∀ xs, x <+: joinWith sep (x :: xs)
  | [] => by simp [joinWith]
  | y :: ys => by
    rw [joinWith]
    exact (List.prefix_append x sep).trans
      (List.prefix_append (x ++ sep) (joinWith sep (y :: ys)))

theorem mem_infix_joinWith (sep : Str) :
    ∀ (xs : List Str) (x : Str), x ∈ xs → x <:+: joinWith sep xs
  | [], x, h => by cases h
  | [y], x, h => by
    rw [List.mem_singleton] at h
    subst h
    exact List.infix_rfl
  | y :: z :: zs, x, h => by
    rcases List.mem_cons.mp h with rfl | h2
    · exact (joinWith_head_prefixes sep x (z :: zs)).isInfix
    · have ih := mem_infix_joinWith sep (z :: zs) x h2
      rw [joinWith]
      exact ih.trans
        ((List.suffix_append (y ++ sep) (joinWith sep (z :: zs))).isInfix)

theorem adfItemsText_eq (items : List AdfItem) (acc : Str) :
    adfItemsText acc items = acc ++ (items.map itemText).flatten := by
  have hfun :
      (fun (a : Str) it =>
        if it.type = lit "text" then a ++ it.text else a) =
      (fun (a : Str) it => a ++ itemText it) := by
    funext a it
    by_cases h : it.type = lit "text" <;> simp [itemText, h]
  rw [adfItemsText, hfun, foldl_append_flatten itemText]

theorem flatten_map_ite_filter {α : Type} (p : α → Bool) (f : α → Str) :
    ∀ l : List α,
      (l.map (fun x => if p x then f x else [])).flatten =
        ((l.filter p).map f).flatten
  | [] => rfl
  | x :: xs => by
    cases hp : p x <;>
      simp [hp, flatten_map_ite_filter p f xs]

theorem searchDescText_eq (blocks : List AdfBlock) :
    searchDescText blocks = ((blocks.filter isPara).map paraText).flatten := by
  have hfun :
      (fun (acc : Str) b =>
        if b.type = lit "paragraph" then adfItemsText acc b.content
        else acc) =
      (fun (acc : Str) b =>
        acc ++ (if isPara b then paraText b else [])) := by
    funext acc b
    by_cases h : b.type = lit "paragraph" <;>
      simp [isPara, h, adfItemsText_eq, paraText]
  rw [searchDescText, hfun,
    foldl_append_flatten (fun b => if isPara b then paraText b else []),
    List.nil_append, flatten_map_ite_filter]

theorem detailsDescText_eq (blocks : List AdfBlock) :
    detailsDescText blocks =
      ((blocks.filter isPara).map (fun b => paraText b ++ lit "\n")).flatten := by
  have hfun :
      (fun (acc : Str) b =>
        if b.type = lit "paragraph" then
          adfItemsText acc b.content ++ lit "\n"
        else acc) =
      (fun (acc : Str) b =>
        acc ++ (if isPara b then paraText b ++ lit "\n" else [])) := by
    funext acc b
    by_cases h : b.type = lit "paragraph" <;>
      simp [isPara, h, adfItemsText_eq, paraText]
  rw [detailsDescText, hfun,
    foldl_append_flatten (fun b => if isPara b then paraText b ++ lit "\n" else []),
    List.nil_append, flatten_map_ite_filter]

theorem pyStrip_wrap (t1 t2 : Str) (c1 c2 : Char) (u1 u2 : Str)
    (e1 : t1 = c1 :: u1) (e2 : t2.reverse = c2 :: u2)
    (h1 : isPyWs c1 = false) (h2 : isPyWs c2 = false) :
    pyStrip (t1 ++ lit "\n" ++ t2 ++ lit "\n") = t1 ++ '\n' :: t2 := by
  have ht2 : t2 = u2.reverse ++ [c2] := by
    rw [← List.reverse_reverse t2, e2]
    simp
  subst e1
  subst ht2
  unfold pyStrip
  have hwnl : isPyWs '\n' = true := by decide
  simp [List.dropWhile_cons, h1, h2, hwnl, lit]

/-! ## Claims -/

/-- Claim C5: the description preview of a text of at most 200
characters is the text itself, with nothing appended; for a longer
text it is exactly the first 200 characters followed by the ellipsis
marker. -/
theorem spec_c5 (d : Str) :
    (d.length ≤ 200 → description_preview d = d) ∧
    (200 < d.length →
      description_preview d = d.take 200 ++ lit "..." ∧
      (d.take 200).length = 200) := by
  constructor
  · intro h
    simp [description_preview, Nat.not_lt.mpr h]
  · intro h
    refine ⟨by simp [description_preview, h], ?_⟩
    rw [List.length_take]
    omega

/-- Witness for C5 at a short text (length 3) and a long one
(length 201). -/
theorem spec_c5_witness :
    description_preview (lit "abc") = lit "abc" ∧
    description_preview (List.replicate 201 'a') =
      List.replicate 200 'a' ++ lit "..." := by
  constructor
  · exact (spec_c5 (lit "abc")).1 (by decide)
  · have h := ((spec_c5 (List.replicate 201 'a')).2
      (by rw [List.length_replicate]; norm_num)).1
    rw [h, List.take_replicate]
    norm_num

/-- Claim C10: on an item with at least one comment, the rendered
ticket-details response carries a "Comments (n)" header stating the
total count n, renders the bodies of exactly the last min(5, n)
comments, and for n > 5 the earlier n - 5 comments are the ones
omitted. -/
theorem spec_c10 (fieldBlock : Str) (comments : List CommentRec)
    (h : comments ≠ []) :
    ticketDetailsText fieldBlock comments =
      fieldBlock ++ lit "\nComments (" ++ natChars comments.length ++
        lit "):\n" ++ ((pyLastN 5 comments).map commentBlock).flatten ∧
    (pyLastN 5 comments).length = min 5 comments.length ∧
    (5 < comments.length →
      comments =
        comments.take (comments.length - 5) ++ pyLastN 5 comments ∧
      (comments.take (comments.length - 5)).length =
        comments.length - 5) := by
  refine ⟨?_, ?_, ?_⟩
  · unfold ticketDetailsText commentsSection
    have he : comments.isEmpty = false := by
      simpa [List.isEmpty_iff] using h
    rw [he]
    simp only [Bool.not_false, if_true]
    rw [foldl_append_flatten commentBlock]
    simp [List.append_assoc]
  · rw [pyLastN, List.length_drop]
    omega
  · intro h5
    refine ⟨(List.take_append_drop _ _).symm, ?_⟩
    rw [List.length_take]
    omega

/-- Witness for C10: six comments yield the header "Comments (6)" with
the last five bodies rendered and the first comment omitted. -/
theorem spec_c10_witness :
    ticketDetailsText (lit "T") sixComments =
      lit "T" ++ lit "\nComments (" ++ natChars sixComments.length ++
        lit "):\n" ++ ((pyLastN 5 sixComments).map commentBlock).flatten ∧
    (pyLastN 5 sixComments).length = min 5 sixComments.length ∧
    (5 < sixComments.length →
      sixComments =
        sixComments.take (sixComments.length - 5) ++
          pyLastN 5 sixComments ∧
      (sixComments.take (sixComments.length - 5)).length =
        sixComments.length - 5) :=
  spec_c10 (lit "T") sixComments (by decide)

/-- Claim C1: in a duplicate-aware ticket creation whose search and
creation calls both succeed, the outcome text is the warning block
followed by the created-ticket text; an empty candidate list yields an
empty warning; a non-empty list of n candidates yields a warning whose
header states n as the total count and which lists exactly
min(n, 3) candidates verbatim, each rendered by candidateLine (key,
summary, status). -/
theorem spec_c1 (pc : ProcCfg) (cfg : RuntimeConfig) (env : RemoteEnv)
    (args : TicketArgs) (similar : List Ticket) (key : Str)
    (hsum : pyTruthy args.summary = true)
    (hdef : pyTruthy (get_default_project cfg) = true)
    (hsr : env.searchResult = .ok similar)
    (hcr : env.createResult = .ok key) :
    (createNewTicketHandler pc cfg env args).text =
      ticketCreationWarning similar ++
        createdTicketText pc key
          (if pyTruthyOpt args.epic_key then
            rsplitDashHead (args.epic_key.getD [])
          else get_default_project cfg) ∧
    (similar = [] → ticketCreationWarning similar = []) ∧
    (similar ≠ [] →
      ticketCreationWarning similar =
        warningHeader similar.length ++
          ((similar.take 3).map candidateLine).flatten ++
          lit "\nProceeding with ticket creation...\n\n" ∧
      (similar.take 3).length = min similar.length 3) := by
  refine ⟨?_, ?_, ?_⟩
  · cases hek : pyTruthyOpt args.epic_key <;>
      simp [createNewTicketHandler, create_ticket, hsum, hdef, hsr, hcr, hek]
  · intro h
    subst h
    rfl
  · intro h
    have he : similar.isEmpty = false := by
      simpa [List.isEmpty_iff] using h
    constructor
    · unfold ticketCreationWarning
      rw [he]
      simp only [Bool.not_false, if_true]
      rw [foldl_append_flatten candidateLine]
    · rw [List.length_take]
      omega

/-- Witness for C1: seven candidates returned by the search; the
warning states 7 as the total and lists min(7, 3) = 3 candidates. -/
theorem spec_c1_witness :
    (createNewTicketHandler pc0 cfgProj env7 targs0).text =
      ticketCreationWarning sevenTickets ++
        createdTicketText pc0 (lit "PROJ-100")
          (if pyTruthyOpt targs0.epic_key then
            rsplitDashHead (targs0.epic_key.getD [])
          else get_default_project cfgProj) ∧
    (sevenTickets = [] → ticketCreationWarning sevenTickets = []) ∧
    (sevenTickets ≠ [] →
      ticketCreationWarning sevenTickets =
        warningHeader sevenTickets.length ++
          ((sevenTickets.take 3).map candidateLine).flatten ++
          lit "\nProceeding with ticket creation...\n\n" ∧
      (sevenTickets.take 3).length = min sevenTickets.length 3) :=
  spec_c1 pc0 cfgProj env7 targs0 sevenTickets (lit "PROJ-100")
    (by decide) (by decide) rfl rfl

/-- Counterexample to C2 as stated: with an unset default project and
epic_key "PROJ2-100" supplied, the creation does not succeed — the
handler fails with the configuration error before issuing any remote
call, so epic-prefix resolution does NOT make creation independent of
whether default_project is set. -/
theorem spec_c2_counterexample :
    createNewTicketHandler pc0 cfgUnset env7 targsEpic =
      ⟨[], cfgUnset,
       lit "Error: No default project configured. Set PROJECT_KEYS in .env or use update_config."⟩ := by
  rfl

/-- Claim C2 as amended: when the handler's gate passes (summary
non-empty AND a non-empty default project is configured) and an
epic_key of the form prefix-digits is supplied, the created issue's
project is the epic key's text before its last "-" segment; the
configured default is not used for the resolution (the conclusion
holds for every non-empty configured default). -/
theorem spec_c2_amended (pc : ProcCfg) (cfg : RuntimeConfig)
    (env : RemoteEnv) (args : TicketArgs) (p ds : Str)
    (similar : List Ticket)
    (hsum : pyTruthy args.summary = true)
    (hdef : pyTruthy (get_default_project cfg) = true)
    (hek : args.epic_key = some (p ++ '-' :: ds))
    (hds : '-' ∉ ds)
    (hsr : env.searchResult = .ok similar) :
    (createNewTicketHandler pc cfg env args).calls =
      [RemoteCall.search
        (searchSimilarJql args.summary false none pc.project_keys) 5,
       RemoteCall.create
        (ticketFields pc cfg p args.summary args.description
          args.epic_key)] ∧
    rsplitDashHead (p ++ '-' :: ds) = p := by
  have hr := rsplitDashHead_append p ds hds
  refine ⟨?_, hr⟩
  have hs' : args.summary ≠ [] := by
    simpa [pyTruthy, List.isEmpty_iff] using hsum
  have hd' : get_default_project cfg ≠ [] := by
    simpa [pyTruthy, List.isEmpty_iff] using hdef
  have hne : (p ++ '-' :: ds).isEmpty = false := by
    cases p <;> simp [List.isEmpty]
  cases hc : env.createResult <;>
    simp [createNewTicketHandler, create_ticket, hsum, hdef, hs', hd',
      hsr, hek, hc, hr, pyTruthyOpt, pyTruthy, hne]

/-- Witness for the amended C2: epic key "PROJ2-100" with default
project "PROJ" configured resolves the created issue to project
"PROJ2". -/
theorem spec_c2_amended_witness :
    (createNewTicketHandler pc0 cfgProj env7 targsEpic).calls =
      [RemoteCall.search
        (searchSimilarJql targsEpic.summary false none pc0.project_keys) 5,
       RemoteCall.create
        (ticketFields pc0 cfgProj (lit "PROJ2") targsEpic.summary
          targsEpic.description targsEpic.epic_key)] ∧
    rsplitDashHead (lit "PROJ2" ++ '-' :: lit "100") = lit "PROJ2" :=
  spec_c2_amended pc0 cfgProj env7 targsEpic (lit "PROJ2") (lit "100")
    sevenTickets (by decide) (by decide) (by decide) (by decide) rfl

/-- Claim C3: a creation request with a non-empty summary, no epic key
and no configured default project fails with the configuration error
before any remote call: no call is issued and the configuration state
is left untouched. -/
theorem spec_c3 (pc : ProcCfg) (env : RemoteEnv) (cfg : RuntimeConfig)
    (args : TicketArgs)
    (hsum : pyTruthy args.summary = true)
    (_hek : pyTruthyOpt args.epic_key = false)
    (hdef : get_default_project cfg = []) :
    createNewTicketHandler pc cfg env args =
      ⟨[], cfg,
       lit "Error: No default project configured. Set PROJECT_KEYS in .env or use update_config."⟩ := by
  have hs' : args.summary ≠ [] := by
    simpa [pyTruthy, List.isEmpty_iff] using hsum
  simp [createNewTicketHandler, hsum, hs', hdef, pyTruthy]

/-- Witness for C3 at a concrete request with everything unset. -/
theorem spec_c3_witness :
    createNewTicketHandler pc0 cfgUnset env7 targs0 =
      ⟨[], cfgUnset,
       lit "Error: No default project configured. Set PROJECT_KEYS in .env or use update_config."⟩ :=
  spec_c3 pc0 env7 cfgUnset targs0 (by decide) (by decide) rfl

/-- Claim C4: once validation passes, both creation handlers issue
exactly one similarity-search call first and then exactly one creation
call, whatever the search returned (a non-empty candidate list does
not block creation and the trace does not depend on the creation
response); when the search raises an API error, the trace is the
search call alone. -/
theorem spec_c4 (pc : ProcCfg) (cfg : RuntimeConfig) (env : RemoteEnv)
    (targs : TicketArgs) (eargs : EpicArgs)
    (ht1 : pyTruthy targs.summary = true)
    (ht2 : pyTruthy (get_default_project cfg) = true)
    (he1 : pyTruthy eargs.project = true)
    (he2 : pyTruthy eargs.summary = true) :
    (∀ similar, env.searchResult = .ok similar →
      (∃ f, (createNewTicketHandler pc cfg env targs).calls =
        [RemoteCall.search
          (searchSimilarJql targs.summary false none pc.project_keys) 5,
         RemoteCall.create f]) ∧
      (∃ f, (createNewEpicHandler pc cfg env eargs).calls =
        [RemoteCall.search
          (searchSimilarJql (eargs.summary ++ lit " Epic") false none
            pc.project_keys) 5,
         RemoteCall.create f])) ∧
    (∀ e, env.searchResult = .error e →
      (createNewTicketHandler pc cfg env targs).calls =
        [RemoteCall.search
          (searchSimilarJql targs.summary false none pc.project_keys) 5] ∧
      (createNewEpicHandler pc cfg env eargs).calls =
        [RemoteCall.search
          (searchSimilarJql (eargs.summary ++ lit " Epic") false none
            pc.project_keys) 5]) := by
  have hts : targs.summary ≠ [] := by
    simpa [pyTruthy, List.isEmpty_iff] using ht1
  have htd : get_default_project cfg ≠ [] := by
    simpa [pyTruthy, List.isEmpty_iff] using ht2
  have hep : eargs.project ≠ [] := by
    simpa [pyTruthy, List.isEmpty_iff] using he1
  have hes : eargs.summary ≠ [] := by
    simpa [pyTruthy, List.isEmpty_iff] using he2
  constructor
  · intro similar hsr
    refine ⟨?_, ?_⟩
    · cases hek : pyTruthyOpt targs.epic_key
      · exact ⟨ticketFields pc cfg (get_default_project cfg)
            targs.summary targs.description targs.epic_key,
          by cases hc : env.createResult <;>
            simp [createNewTicketHandler, create_ticket, ht1, ht2, hts,
              htd, hsr, hek, hc]⟩
      · exact ⟨ticketFields pc cfg
            (rsplitDashHead (targs.epic_key.getD [])) targs.summary
            targs.description targs.epic_key,
          by cases hc : env.createResult <;>
            simp [createNewTicketHandler, create_ticket, ht1, ht2, hts,
              htd, hsr, hek, hc]⟩
    · exact ⟨epicFields eargs.project eargs.summary eargs.description,
        by cases hc : env.createResult <;>
          simp [createNewEpicHandler, create_epic, he1, he2, hep, hes,
            hsr, hc]⟩
  · intro e hsr
    refine ⟨?_, ?_⟩
    · simp [createNewTicketHandler, ht1, ht2, hts, htd, hsr]
    · simp [createNewEpicHandler, he1, he2, hep, hes, hsr]

/-- Witness for C4: with seven candidates returned, both handlers
still issue precisely search-then-create. -/
theorem spec_c4_witness :
    (∀ similar, env7.searchResult = .ok similar →
      (∃ f, (createNewTicketHandler pc0 cfgProj env7 targs0).calls =
        [RemoteCall.search
          (searchSimilarJql targs0.summary false none pc0.project_keys) 5,
         RemoteCall.create f]) ∧
      (∃ f, (createNewEpicHandler pc0 cfgProj env7 eargs0).calls =
        [RemoteCall.search
          (searchSimilarJql (eargs0.summary ++ lit " Epic") false none
            pc0.project_keys) 5,
         RemoteCall.create f])) ∧
    (∀ e, env7.searchResult = .error e →
      (createNewTicketHandler pc0 cfgProj env7 targs0).calls =
        [RemoteCall.search
          (searchSimilarJql targs0.summary false none pc0.project_keys) 5] ∧
      (createNewEpicHandler pc0 cfgProj env7 eargs0).calls =
        [RemoteCall.search
          (searchSimilarJql (eargs0.summary ++ lit " Epic") false none
            pc0.project_keys) 5]) :=
  spec_c4 pc0 cfgProj env7 targs0 eargs0
    (by decide) (by decide) (by decide) (by decide)

/-- Counterexample to C6 as stated: in the search_similar_tickets
flattener, a document of two paragraph blocks each holding one text
node flattens to the concatenation of the two texts with NO newline
between the paragraphs. -/
theorem spec_c6_counterexample :
    searchDescText twoParaHelloWorld = lit "HelloWorld" ∧
    searchDescText twoParaHelloWorld ≠
      lit "Hello" ++ lit "\n" ++ lit "World" := by
  constructor
  · rfl
  · decide

/-- Claim C6 as amended: both flatteners silently drop non-paragraph
blocks and concatenate a paragraph's plain-text leaves with no
separator; the get_ticket_details description flattener appends a
newline after each paragraph and the final description is stripped, so
two paragraphs (first text not starting with whitespace, second not
ending with one) flatten to the texts joined by exactly one newline;
the search_similar_tickets flattener instead joins consecutive
paragraphs with no separator at all. -/
theorem spec_c6_amended :
    (∀ blocks, searchDescText blocks =
        ((blocks.filter isPara).map paraText).flatten ∧
      detailsDescText blocks =
        ((blocks.filter isPara).map
          (fun b => paraText b ++ lit "\n")).flatten) ∧
    (∀ t1 t2 : Str, searchDescText
        [⟨lit "paragraph", [⟨lit "text", t1⟩]⟩,
         ⟨lit "paragraph", [⟨lit "text", t2⟩]⟩] = t1 ++ t2) ∧
    (∀ t1 t2 : Str, t1 ≠ [] → t2 ≠ [] →
      isPyWs t1.headI = false → isPyWs t2.reverse.headI = false →
      detailsDescription
        [⟨lit "paragraph", [⟨lit "text", t1⟩]⟩,
         ⟨lit "paragraph", [⟨lit "text", t2⟩]⟩] = t1 ++ '\n' :: t2) := by
  refine ⟨fun blocks =>
    ⟨searchDescText_eq blocks, detailsDescText_eq blocks⟩, ?_, ?_⟩
  · intro t1 t2
    simp [searchDescText, adfItemsText]
  · intro t1 t2 h1 h2 hw1 hw2
    obtain ⟨c1, u1, e1⟩ := List.exists_cons_of_ne_nil h1
    have h2r : t2.reverse ≠ [] := by simpa using h2
    obtain ⟨c2, u2, e2⟩ := List.exists_cons_of_ne_nil h2r
    have hc1 : isPyWs c1 = false := by
      rw [e1] at hw1
      simpa using hw1
    have hc2 : isPyWs c2 = false := by
      rw [e2] at hw2
      simpa using hw2
    have hflat : detailsDescText
        [⟨lit "paragraph", [⟨lit "text", t1⟩]⟩,
         ⟨lit "paragraph", [⟨lit "text", t2⟩]⟩] =
        t1 ++ lit "\n" ++ t2 ++ lit "\n" := by
      simp [detailsDescText, adfItemsText]
    unfold detailsDescription
    rw [hflat]
    exact pyStrip_wrap t1 t2 c1 c2 u1 u2 e1 e2 hc1 hc2

/-- Witness for the amended C6: "Hello"/"World" paragraphs flatten to
"Hello\nWorld" in the details path and "HelloWorld" in the search
path. -/
theorem spec_c6_amended_witness :
    detailsDescription twoParaHelloWorld =
      lit "Hello" ++ '\n' :: lit "World" ∧
    searchDescText twoParaHelloWorld = lit "Hello" ++ lit "World" :=
  ⟨spec_c6_amended.2.2 (lit "Hello") (lit "World") (by decide)
      (by decide) (by decide) (by decide),
   spec_c6_amended.2.1 (lit "Hello") (lit "World")⟩

theorem searchSimilarParts_head (text : Str) (b : Bool)
    (pf : Option Str) (pk : List Str) :
    ∃ rest, searchSimilarParts text b pf pk =
      (lit "text ~ \"" ++ text ++ lit "\"") :: rest := by
  unfold searchSimilarParts
  dsimp only
  split_ifs
  · exact ⟨[lit "statusCategory != \"Done\"",
      lit "project = \"" ++ pf.getD [] ++ lit "\""], by simp⟩
  · exact ⟨[lit "project = \"" ++ pf.getD [] ++ lit "\""], by simp⟩
  · exact ⟨[lit "statusCategory != \"Done\"", get_project_jql pk],
      by simp⟩
  · exact ⟨[get_project_jql pk], by simp⟩
  · exact ⟨[lit "statusCategory != \"Done\""], by simp⟩
  · exact ⟨[], by simp⟩

theorem searchSimilarParts_project_mem (text p : Str) (b : Bool)
    (pk : List Str) (hp : pyTruthy p = true) :
    (lit "project = \"" ++ p ++ lit "\"") ∈
      searchSimilarParts text b (some p) pk := by
  have ht : pyTruthyOpt (some p) = true := hp
  simp only [searchSimilarParts, ht, if_true, Option.getD_some]
  exact List.mem_append_right _ (by simp)

/-- Counterexample to C7 as stated: the members of the project-in-set
clause are interpolated without quotes (the rendered clause contains
no quote character at all), and the epic-tickets query does not end
with the most-recently-updated-first ordering clause (its ordering is
by status first). -/
theorem spec_c7_counterexample :
    searchSimilarJql (lit "bug") false none [lit "PROJ"] =
      lit "text ~ \"bug\" AND statusCategory != \"Done\" AND project IN (PROJ) ORDER BY updated DESC" ∧
    '"' ∉ get_project_jql [lit "PROJ"] ∧
    (lit " ORDER BY updated DESC").isSuffixOf
      (fetchEpicTicketsJql (lit "P-1") true) = false := by
  refine ⟨rfl, by decide, by decide⟩

/-- Claim C7 as amended: clauses are joined with " AND "; the
similarity-search query always ends with " ORDER BY updated DESC"
while the epic-tickets query ends with
" ORDER BY status ASC, updated DESC"; the free-text and
project-equals operands are rendered in double quotes; the
project-in-set clause interpolates its members without quoting. -/
theorem spec_c7_amended :
    (∀ (text : Str) (b : Bool) (pf : Option Str) (pk : List Str),
      lit " ORDER BY updated DESC" <:+ searchSimilarJql text b pf pk) ∧
    (∀ (e : Str) (b : Bool),
      lit " ORDER BY status ASC, updated DESC" <:+
        fetchEpicTicketsJql e b) ∧
    (∀ (text : Str) (b : Bool) (pf : Option Str) (pk : List Str),
      (lit "text ~ \"" ++ text ++ lit "\"") <:+:
        searchSimilarJql text b pf pk) ∧
    (∀ (text p : Str) (b : Bool) (pk : List Str), pyTruthy p = true →
      (lit "project = \"" ++ p ++ lit "\"") <:+:
        searchSimilarJql text b (some p) pk) ∧
    (∀ pk, pk ≠ [] →
      get_project_jql pk =
        lit "project IN (" ++ joinWith (lit ", ") pk ++ lit ")") := by
  refine ⟨?_, ?_, ?_, ?_, ?_⟩
  · intro text b pf pk
    exact List.suffix_append _ _
  · intro e b
    exact List.suffix_append _ _
  · intro text b pf pk
    obtain ⟨rest, hr⟩ := searchSimilarParts_head text b pf pk
    unfold searchSimilarJql
    rw [hr]
    exact ((joinWith_head_prefixes _ _ _).trans
      (List.prefix_append _ _)).isInfix
  · intro text p b pk hp
    unfold searchSimilarJql
    exact (mem_infix_joinWith _ _ _
      (searchSimilarParts_project_mem text p b pk hp)).trans
      (List.prefix_append _ _).isInfix
  · intro pk hk
    have he : pk.isEmpty = false := by
      simpa [List.isEmpty_iff] using hk
    simp [get_project_jql, he]

/-- Witness for the amended C7 at concrete queries. -/
theorem spec_c7_witness :
    lit " ORDER BY updated DESC" <:+
      searchSimilarJql (lit "bug") false none [lit "PROJ"] ∧
    lit " ORDER BY status ASC, updated DESC" <:+
      fetchEpicTicketsJql (lit "P-1") false ∧
    (lit "text ~ \"" ++ lit "bug" ++ lit "\"") <:+:
      searchSimilarJql (lit "bug") false none [lit "PROJ"] ∧
    (lit "project = \"" ++ lit "PROJ" ++ lit "\"") <:+:
      searchSimilarJql (lit "bug") false (some (lit "PROJ")) [] ∧
    get_project_jql [lit "A", lit "B"] =
      lit "project IN (" ++ joinWith (lit ", ") [lit "A", lit "B"] ++
        lit ")" :=
  ⟨spec_c7_amended.1 (lit "bug") false none [lit "PROJ"],
   spec_c7_amended.2.1 (lit "P-1") false,
   spec_c7_amended.2.2.1 (lit "bug") false none [lit "PROJ"],
   spec_c7_amended.2.2.2.1 (lit "bug") (lit "PROJ") false [] (by decide),
   spec_c7_amended.2.2.2.2 [lit "A", lit "B"] (by decide)⟩

/-- Counterexample to C8 as stated: a present default_project value is
not accepted as-is — "ABC" against allowlist ["PROJ"] is rejected with
an error, nothing is written and nothing is persisted; and even when
accepted (empty allowlist), "abc" is stored uppercased, not as
given. -/
theorem spec_c8_counterexample :
    updateConfigHandler [lit "PROJ"] cfgUnset ⟨some (lit "ABC"), none⟩ =
      ⟨cfgUnset, 0,
       lit "Error: " ++ [squote] ++ lit "ABC" ++ [squote] ++
         lit " is not a configured project. Available: PROJ"⟩ ∧
    (updateConfigHandler [] cfgUnset
        ⟨some (lit "abc"), none⟩).config.default_project = lit "ABC" ∧
    lit "ABC" ≠ lit "abc" := by
  refine ⟨rfl, rfl, by decide⟩

/-- Claim C8 as amended: a present, non-empty project value is
uppercased; when the allowlist is empty or contains the uppercased
value it is written and persisted exactly once, and otherwise the call
fails with an error, writing and persisting nothing; a present sprint
id is always written (stringified; the falsy integer 0 is stored as
the empty string) and persisted once; reading an unset setting returns
the empty string. -/
theorem spec_c8_amended :
    (∀ (pk : List Str) (cfg : RuntimeConfig) (v : Str),
      pyTruthy v = true →
      (pk.isEmpty || pk.contains (upperChars v)) = true →
      (updateConfigHandler pk cfg ⟨some v, none⟩).config =
        set_default_project cfg (upperChars v) ∧
      (updateConfigHandler pk cfg ⟨some v, none⟩).persists = 1) ∧
    (∀ (pk : List Str) (cfg : RuntimeConfig) (v : Str),
      pyTruthy v = true →
      pk.isEmpty = false →
      pk.contains (upperChars v) = false →
      (updateConfigHandler pk cfg ⟨some v, none⟩).config = cfg ∧
      (updateConfigHandler pk cfg ⟨some v, none⟩).persists = 0 ∧
      (updateConfigHandler pk cfg ⟨some v, none⟩).text =
        lit "Error: " ++ [squote] ++ upperChars v ++ [squote] ++
          lit " is not a configured project. Available: " ++
          joinWith (lit ", ") pk) ∧
    (∀ (pk : List Str) (cfg : RuntimeConfig) (i : Int),
      (updateConfigHandler pk cfg ⟨none, some i⟩).config =
        set_default_sprint_id cfg i ∧
      (updateConfigHandler pk cfg ⟨none, some i⟩).persists = 1) ∧
    (∀ s : Str, get_default_project ⟨s, []⟩ = []) ∧
    (∀ p : Str, get_default_sprint_id ⟨[], p⟩ = []) := by
  refine ⟨?_, ?_, ?_, fun s => rfl, fun p => rfl⟩
  · intro pk cfg v hv hallow
    have hcond : ¬(¬pk = [] ∧ upperChars v ∉ pk) := by
      rcases (Bool.or_eq_true _ _).mp hallow with h | h
      · exact fun hx => hx.1 (List.isEmpty_iff.mp h)
      · exact fun hx => hx.2 (by simpa using h)
    constructor <;> simp [updateConfigHandler, hv, hcond]
  · intro pk cfg v hv h1 h2
    have h1' : ¬pk = [] := by
      simpa [List.isEmpty_iff] using (by simp [h1] : ¬pk.isEmpty = true)
    have h2' : upperChars v ∉ pk := by simpa using h2
    refine ⟨?_, ?_, ?_⟩ <;> simp [updateConfigHandler, hv, h1', h2']
  · intro pk cfg i
    constructor <;> simp [updateConfigHandler]

/-- Witness for the amended C8 at concrete updates. -/
theorem spec_c8_witness :
    ((updateConfigHandler [] cfgUnset ⟨some (lit "proj"), none⟩).config =
        set_default_project cfgUnset (upperChars (lit "proj")) ∧
      (updateConfigHandler [] cfgUnset
        ⟨some (lit "proj"), none⟩).persists = 1) ∧
    ((updateConfigHandler [lit "PROJ"] cfgUnset
        ⟨some (lit "ABC"), none⟩).config = cfgUnset ∧
      (updateConfigHandler [lit "PROJ"] cfgUnset
        ⟨some (lit "ABC"), none⟩).persists = 0 ∧
      (updateConfigHandler [lit "PROJ"] cfgUnset
        ⟨some (lit "ABC"), none⟩).text =
        lit "Error: " ++ [squote] ++ upperChars (lit "ABC") ++ [squote] ++
          lit " is not a configured project. Available: " ++
          joinWith (lit ", ") [lit "PROJ"]) ∧
    ((updateConfigHandler [lit "PROJ"] cfgProj ⟨none, some 7⟩).config =
        set_default_sprint_id cfgProj 7 ∧
      (updateConfigHandler [lit "PROJ"] cfgProj ⟨none, some 7⟩).persists
        = 1) ∧
    get_default_project ⟨lit "5", []⟩ = [] ∧
    get_default_sprint_id ⟨[], lit "PROJ"⟩ = [] :=
  ⟨spec_c8_amended.1 [] cfgUnset (lit "proj") (by decide) (by decide),
   spec_c8_amended.2.1 [lit "PROJ"] cfgUnset (lit "ABC") (by decide)
     (by decide) (by decide),
   spec_c8_amended.2.2.1 [lit "PROJ"] cfgProj 7,
   spec_c8_amended.2.2.2.1 (lit "5"),
   spec_c8_amended.2.2.2.2 (lit "PROJ")⟩

theorem scanTransitions_no_match (req : Str) :
    ∀ ts : List RemoteTransition,
      (∀ t ∈ ts, lowerChars (optChars t.name) ≠ lowerChars req) →
      scanTransitions req ts = (none, ts.map RemoteTransition.name)
  | [], _ => rfl
  | t :: ts, h => by
    have hh : ¬ lowerChars (optChars t.name) = lowerChars req :=
      h t (by simp)
    rw [scanTransitions, if_neg hh]
    simp [scanTransitions_no_match req ts
      (fun u hu => h u (List.mem_cons_of_mem _ hu))]

theorem scanTransitions_match (req : Str) :
    ∀ ts : List RemoteTransition,
      (∃ t ∈ ts, lowerChars (optChars t.name) = lowerChars req) →
      ∃ t ∈ ts, lowerChars (optChars t.name) = lowerChars req ∧
        (scanTransitions req ts).1 = some t.id
  | [], h => absurd h (by simp)
  | t :: ts, h => by
    by_cases hh : lowerChars (optChars t.name) = lowerChars req
    · exact ⟨t, by simp, hh, by rw [scanTransitions, if_pos hh]⟩
    · obtain ⟨u, hu, hequ⟩ := h
      rcases List.mem_cons.mp hu with rfl | hu2
      · exact absurd hequ hh
      · obtain ⟨w, hw, hw2, hw3⟩ :=
          scanTransitions_match req ts ⟨u, hu2, hequ⟩
        refine ⟨w, List.mem_cons_of_mem _ hw, hw2, ?_⟩
        rw [scanTransitions, if_neg hh]
        simpa using hw3

/-- Claim C9: under a well-formed list-transitions response (every
offered transition carries a non-empty id), the requested name is
matched case-insensitively against the offered names; the transition
is applied — by the matched transition's id — exactly when such a
match exists, and otherwise the call fails with the error listing the
offered transition names. -/
theorem spec_c9 (transitions : List RemoteTransition) (requested : Str)
    (hwf : ∀ t ∈ transitions, pyTruthyOpt t.id = true) :
    ((∃ t ∈ transitions,
        lowerChars (optChars t.name) = lowerChars requested) ↔
      ∃ i, transitionDecision transitions requested = .ok i) ∧
    (∀ i, transitionDecision transitions requested = .ok i →
      ∃ t ∈ transitions,
        lowerChars (optChars t.name) = lowerChars requested ∧
        optChars t.id = i) ∧
    ((¬ ∃ t ∈ transitions,
        lowerChars (optChars t.name) = lowerChars requested) →
      transitionDecision transitions requested =
        .error (transitionNotFoundText requested
          (transitions.map RemoteTransition.name))) := by
  have hok : ∀ hm : ∃ t ∈ transitions,
      lowerChars (optChars t.name) = lowerChars requested,
      ∃ t ∈ transitions,
        lowerChars (optChars t.name) = lowerChars requested ∧
        transitionDecision transitions requested =
          .ok (optChars t.id) := by
    intro hm
    obtain ⟨t, ht, hteq, hfst⟩ := scanTransitions_match requested transitions hm
    refine ⟨t, ht, hteq, ?_⟩
    rcases hscan : scanTransitions requested transitions with ⟨found, avail⟩
    rw [hscan] at hfst
    simp only at hfst
    subst hfst
    simp [transitionDecision, hscan, hwf t ht, optChars]
  have herr : (¬ ∃ t ∈ transitions,
      lowerChars (optChars t.name) = lowerChars requested) →
      transitionDecision transitions requested =
        .error (transitionNotFoundText requested
          (transitions.map RemoteTransition.name)) := by
    intro hm
    have hs := scanTransitions_no_match requested transitions
      (by
        intro t ht heq
        exact hm ⟨t, ht, heq⟩)
    simp [transitionDecision, hs, pyTruthyOpt]
  refine ⟨⟨?_, ?_⟩, ?_, herr⟩
  · intro hm
    obtain ⟨t, _, _, hdec⟩ := hok hm
    exact ⟨optChars t.id, hdec⟩
  · intro hi
    by_cases hm : ∃ t ∈ transitions,
        lowerChars (optChars t.name) = lowerChars requested
    · exact hm
    · obtain ⟨i, hdec⟩ := hi
      rw [herr hm] at hdec
      cases hdec
  · intro i hdec
    by_cases hm : ∃ t ∈ transitions,
        lowerChars (optChars t.name) = lowerChars requested
    · obtain ⟨t, ht, hteq, hdec2⟩ := hok hm
      refine ⟨t, ht, hteq, ?_⟩
      rw [hdec2] at hdec
      cases hdec
      rfl
    · rw [herr hm] at hdec
      cases hdec

/-- Witness for C9: requesting "done" against offered transitions
"Done" (id 31) and "To Do" (id 41). -/
theorem spec_c9_witness :
    ((∃ t ∈ doneTransitions,
        lowerChars (optChars t.name) = lowerChars (lit "done")) ↔
      ∃ i, transitionDecision doneTransitions (lit "done") = .ok i) ∧
    (∀ i, transitionDecision doneTransitions (lit "done") = .ok i →
      ∃ t ∈ doneTransitions,
        lowerChars (optChars t.name) = lowerChars (lit "done") ∧
        optChars t.id = i) ∧
    ((¬ ∃ t ∈ doneTransitions,
        lowerChars (optChars t.name) = lowerChars (lit "done")) →
      transitionDecision doneTransitions (lit "done") =
        .error (transitionNotFoundText (lit "done")
          (doneTransitions.map RemoteTransition.name))) :=
  spec_c9 doneTransitions (lit "done") (by decide)

end JiraAssistant
